import Mathlib

/-!
Shallow embedding of the Moltbook client (src/tools/moltbook.py): the
credential store (load_credentials / save_credentials / get_auth_headers),
the API client core (api_request) and the domain operations the claims
mention (register_on_moltbook, get_feed), together with theorems settling
the specification claims.

Modelling conventions:
* Python JSON values are the inductive type Json below.
* The credential file on disk is `Option FileData`: `none` when the file is
  absent, `some (FileData.jsonContent v)` when its text parses as the JSON
  value v, and `some (FileData.rawContent s)` when its text s does not parse
  as JSON (so json.loads raises on it).
* The network is a function from the issued HttpRequest to a NetResult:
  either a response (status code plus body) or a transport-level exception
  carrying its message.  An HTTP body is its raw text paired with the result
  of attempting to parse that text as JSON (`none` when unparsable).
* Python exceptions that escape a function are `Except.error msg`; a normal
  return is `Except.ok`.  Exception message texts for library exceptions
  (json.JSONDecodeError, httpx.HTTPStatusError, AttributeError) are modelled
  by representative constructor functions; only their identity as raised
  exceptions, never their exact wording, is used by the theorems.
* Each embedded operation also returns the list of HTTP requests it issued,
  so "performs no network call" is the statement that this list is empty.
-/

namespace Moltbook

/-- A Python/JSON value: None, bool, int, str, list or dict
(dicts are association lists with distinct keys in insertion order). -/
inductive Json where
  | null : Json
  | bool (b : Bool) : Json
  | num (n : Int) : Json
  | str (s : String) : Json
  | arr (xs : List Json) : Json
  | obj (kvs : List (String × Json)) : Json

/-- First binding of a key in an association list, modelling dict.get:
none when the key is absent. -/
def lookupKey : List (String × Json) → String → Option Json
  | [], _ => none
  | (k, v) :: rest, key => if k = key then some v else lookupKey rest key

/-- Python truthiness of a JSON value, as used in conditions such as
"if not credentials" and "if result.get(agent)". -/
def Json.truthy : Json → Bool
  | .null => false
  | .bool b => b
  | .num n => n != 0
  | .str s => s != ""
  | .arr xs => !xs.isEmpty
  | .obj kvs => !kvs.isEmpty

mutual

/-- Python repr() of a JSON value, used when a value is interpolated into
an f-string inside a container or as a dict. -/
def Json.pyRepr : Json → String
  | .null => "None"
  | .bool b => if b then "True" else "False"
  | .num n => toString n
  | .str s => "\x27" ++ s ++ "\x27"
  | .arr xs => "[" ++ pyReprArr xs ++ "]"
  | .obj kvs => "\x7b" ++ pyReprFields kvs ++ "\x7d"

/-- Comma-separated repr of list elements. -/
def pyReprArr : List Json → String
  | [] => ""
  | [x] => Json.pyRepr x
  | x :: rest => Json.pyRepr x ++ ", " ++ pyReprArr rest

/-- Comma-separated repr of dict entries. -/
def pyReprFields : List (String × Json) → String
  | [] => ""
  | [(k, v)] => "\x27" ++ k ++ "\x27: " ++ Json.pyRepr v
  | (k, v) :: rest => "\x27" ++ k ++ "\x27: " ++ Json.pyRepr v ++ ", " ++ pyReprFields rest

end

/-- Python str() of a JSON value: like repr, except a top-level string
prints without quotes. -/
def Json.pyStr : Json → String
  | .str s => s
  | v => v.pyRepr

/-- Python str() of a value that may be None (e.g. the result of dict.get
interpolated into an f-string). -/
def pyStrOpt : Option Json → String
  | none => "None"
  | some v => v.pyStr

/-- The fixed credential file path (Path.home() / ".config" / "moltbook" /
"credentials.json"), with the home directory abbreviated. -/
def CREDENTIALS_FILE : String := "~/.config/moltbook/credentials.json"

/-- The fixed base URL of the remote API. -/
def MOLTBOOK_API_BASE : String := "https://www.moltbook.com/api/v1"

/-- Content of the credential file when it exists: either text that parses
as the JSON value v, or text s that does not parse as JSON. -/
inductive FileData where
  | jsonContent (v : Json) : FileData
  | rawContent (s : String) : FileData

/-- Message of the json.JSONDecodeError raised by json.loads on text that
is not valid JSON (representative wording). -/
def jsonDecodeError (text : String) : String :=
  "JSONDecodeError while parsing: " ++ text

/-- Message of the AttributeError raised when .get is called on a value
that is not a dict (representative wording). -/
def attributeErrorGet : String :=
  "AttributeError: object has no attribute get"

/-- load_credentials: returns None when the file does not exist, otherwise
json.loads(file text) — which raises when the text is not valid JSON. -/
def load_credentials : Option FileData → Except String (Option Json)
  | none => .ok none
  | some (.jsonContent v) => .ok (some v)
  | some (.rawContent s) => .error (jsonDecodeError s)

/-- save_credentials: creates the parent directory as needed and writes
json.dumps(credentials) over the file.  The stored text parses back to the
written value, so the new file state is jsonContent of the record. -/
def save_credentials (credentials : Json) (_fs : Option FileData) : Option FileData :=
  some (FileData.jsonContent credentials)

/-- get_auth_headers: loads the credentials and returns, as the value of
the Authorization header, Bearer followed by str(credentials[api_key]);
returns none (the empty header dict) when credentials are falsy or
credentials.get(api_key) is falsy.  A malformed credential file makes
load_credentials raise; a truthy non-dict credential value makes
credentials.get raise AttributeError. -/
def get_auth_headers (fs : Option FileData) : Except String (Option String) :=
  match load_credentials fs with
  | .error e => .error e
  | .ok none => .ok none
  | .ok (some credentials) =>
    if credentials.truthy = false then .ok none
    else
      match credentials with
      | .obj kvs =>
        match lookupKey kvs "api_key" with
        | none => .ok none
        | some v => if v.truthy then .ok (some ("Bearer " ++ v.pyStr)) else .ok none
      | _ => .error attributeErrorGet

/-- An HTTP request as issued by httpx.request inside api_request: method,
full URL, optional JSON body, optional query parameters and headers.  The
fixed 30-second timeout is common to every request and not recorded. -/
structure HttpRequest where
  method : String
  url : String
  json_data : Option Json
  params : Option (List (String × Json))
  headers : List (String × String)

/-- An HTTP response body: its raw text (response.text) paired with the
result of parsing that text as JSON (response.json(); none when the parse
raises). -/
structure HttpBody where
  text : String
  parsed : Option Json

/-- What the transport does for an issued request: either an HTTP response
with a status code and a body, or a transport-level exception (DNS failure,
connection refused, timeout, ...) whose message is msg. -/
inductive NetResult where
  | resp (status : Nat) (body : HttpBody) : NetResult
  | err (msg : String) : NetResult

/-- Whether a status code is a success in the httpx sense (2xx);
response.raise_for_status() raises HTTPStatusError on every other code. -/
def statusIs2xx (status : Nat) : Bool :=
  decide (200 ≤ status) && decide (status < 300)

/-- Message of the httpx.HTTPStatusError raised by raise_for_status for a
non-2xx response (representative wording; the real message also names the
status phrase). -/
def httpStatusErrorStr (status : Nat) (url : String) : String :=
  "HTTP status error " ++ toString status ++ " for url " ++ url

/-- The failure dict literal with only success and error keys. -/
def mkFailure (error : String) : Json :=
  Json.obj [("success", Json.bool false), ("error", Json.str error)]

/-- The pre-flight failure message returned when authentication is required
but no token is available. -/
def notRegisteredMsg : String :=
  "Not registered on Moltbook. Use register_on_moltbook first."

/-- The headers dict api_request starts from. -/
def baseHeaders : List (String × String) := [("Content-Type", "application/json")]

/-- Result of an api_request call that did not raise: the returned dict and
the list of HTTP requests issued (empty or a single request). -/
structure ApiOutcome where
  result : Json
  calls : List HttpRequest

/-- What api_request does once headers are settled: issue the request and
normalize the outcome.  Transport exceptions become the failure shape with
the exception message; a non-2xx status becomes, when the body parses as a
JSON dict, a dict with success False, the body's error field (or the
HTTPStatusError message when absent) and the body's hint field (or None);
when the body does not parse as a dict, the failure shape with
"status - raw text"; a 2xx response returns response.json(), or the failure
shape with the JSONDecodeError message when the body is unparsable. -/
def requestAndNormalize (net : HttpRequest → NetResult) (method url : String)
    (json_data : Option Json) (params : Option (List (String × Json)))
    (headers : List (String × String)) : ApiOutcome :=
  let req : HttpRequest := ⟨method, url, json_data, params, headers⟩
  match net req with
  | .err msg => ⟨mkFailure msg, [req]⟩
  | .resp status body =>
    if statusIs2xx status then
      match body.parsed with
      | some v => ⟨v, [req]⟩
      | none => ⟨mkFailure (jsonDecodeError body.text), [req]⟩
    else
      match body.parsed with
      | some (Json.obj kvs) =>
        ⟨Json.obj [("success", Json.bool false),
                   ("error", (lookupKey kvs "error").getD
                               (Json.str (httpStatusErrorStr status url))),
                   ("hint", (lookupKey kvs "hint").getD Json.null)], [req]⟩
      | _ => ⟨mkFailure (toString status ++ " - " ++ body.text), [req]⟩

/-- api_request: resolves headers (short-circuiting with the
not-registered failure, and zero network calls, when require_auth is set
but no token is available), then issues the request against
MOLTBOOK_API_BASE ++ endpoint and normalizes the outcome.  An exception
raised while reading the credential file propagates. -/
def api_request (fs : Option FileData) (net : HttpRequest → NetResult)
    (method endpoint : String) (json_data : Option Json)
    (params : Option (List (String × Json))) (require_auth : Bool) :
    Except String ApiOutcome :=
  let url := MOLTBOOK_API_BASE ++ endpoint
  if require_auth then
    match get_auth_headers fs with
    | .error e => .error e
    | .ok none => .ok ⟨mkFailure notRegisteredMsg, []⟩
    | .ok (some auth) =>
      .ok (requestAndNormalize net method url json_data params
            (baseHeaders ++ [("Authorization", auth)]))
  else
    .ok (requestAndNormalize net method url json_data params baseHeaders)

mutual

/-- json.dumps of a JSON value as used in the display strings (the real
call passes indent 2; the whitespace layout, which no claim inspects, is
abbreviated to single-line form). -/
def Json.dumps : Json → String
  | .null => "null"
  | .bool b => if b then "true" else "false"
  | .num n => toString n
  | .str s => "\"" ++ s ++ "\""
  | .arr xs => "[" ++ dumpsArr xs ++ "]"
  | .obj kvs => "\x7b" ++ dumpsFields kvs ++ "\x7d"

/-- Comma-separated dumps of list elements. -/
def dumpsArr : List Json → String
  | [] => ""
  | [x] => Json.dumps x
  | x :: rest => Json.dumps x ++ ", " ++ dumpsArr rest

/-- Comma-separated dumps of dict entries. -/
def dumpsFields : List (String × Json) → String
  | [] => ""
  | [(k, v)] => "\"" ++ k ++ "\": " ++ Json.dumps v
  | (k, v) :: rest => "\"" ++ k ++ "\": " ++ Json.dumps v ++ ", " ++ dumpsFields rest

end

/-- Result of running a tool function: the display string it returns (or
the exception it raises), the credential file state afterwards, and the
HTTP requests issued. -/
structure ToolResult where
  display : Except String String
  fs : Option FileData
  calls : List HttpRequest

/-- The success message register_on_moltbook builds from the agent name and
the claim_url and verification_code fields of the response's agent dict. -/
def registrationMessage (name : String)
    (claim_url verification_code : Option Json) : String :=
  "Successfully registered on Moltbook!\n\n" ++
  "Agent Name: " ++ name ++ "\n" ++
  "Claim URL: " ++ pyStrOpt claim_url ++ "\n" ++
  "Verification Code: " ++ pyStrOpt verification_code ++ "\n\n" ++
  "IMPORTANT: Send the claim URL to your human owner. " ++
  "They need to verify ownership via Twitter/X to activate the account.\n\n" ++
  "Credentials saved to: " ++ CREDENTIALS_FILE

/-- The body of register_on_moltbook after the already-registered check:
POST /agents/register without auth, then, when the result has a truthy
agent field, save the four-field credential record and return the success
message; otherwise return the registration-failed string. -/
def registerProceed (fs : Option FileData) (net : HttpRequest → NetResult)
    (name description : String) : ToolResult :=
  match api_request fs net "POST" "/agents/register"
      (some (Json.obj [("name", Json.str name), ("description", Json.str description)]))
      none false with
  | .error e => ⟨.error e, fs, []⟩
  | .ok out =>
    match out.result with
    | Json.obj rkvs =>
      match lookupKey rkvs "agent" with
      | some agent =>
        if agent.truthy then
          match agent with
          | Json.obj akvs =>
            let record := Json.obj [
              ("api_key", (lookupKey akvs "api_key").getD Json.null),
              ("agent_name", Json.str name),
              ("claim_url", (lookupKey akvs "claim_url").getD Json.null),
              ("verification_code", (lookupKey akvs "verification_code").getD Json.null)]
            ⟨.ok (registrationMessage name (lookupKey akvs "claim_url")
                    (lookupKey akvs "verification_code")),
             save_credentials record fs, out.calls⟩
          | _ => ⟨.error attributeErrorGet, fs, out.calls⟩
        else ⟨.ok ("Registration failed: " ++ out.result.pyRepr), fs, out.calls⟩
      | none => ⟨.ok ("Registration failed: " ++ out.result.pyRepr), fs, out.calls⟩
    | _ => ⟨.error attributeErrorGet, fs, out.calls⟩

/-- register_on_moltbook: when an existing credential record has a truthy
api_key, returns the already-registered message with the stored agent_name
and performs no network call; otherwise registers via registerProceed. -/
def register_on_moltbook (fs : Option FileData) (net : HttpRequest → NetResult)
    (name description : String) : ToolResult :=
  match load_credentials fs with
  | .error e => ⟨.error e, fs, []⟩
  | .ok existing =>
    match existing with
    | none => registerProceed fs net name description
    | some ex =>
      if ex.truthy = false then registerProceed fs net name description
      else
        match ex with
        | Json.obj kvs =>
          match lookupKey kvs "api_key" with
          | some v =>
            if v.truthy then
              ⟨.ok ("Already registered as " ++ pyStrOpt (lookupKey kvs "agent_name") ++
                    ". API key exists."), fs, []⟩
            else registerProceed fs net name description
          | none => registerProceed fs net name description
        | _ => ⟨.error attributeErrorGet, fs, []⟩

/-- How get_feed formats an api_request result: the failure string when
result.get(success) is the Python False singleton, json.dumps(result)
otherwise; result.get raises AttributeError on a non-dict result. -/
def feedDisplay (result : Json) : Except String String :=
  match result with
  | Json.obj kvs =>
    match lookupKey kvs "success" with
    | some (Json.bool false) =>
      .ok ("Failed to get feed: " ++ pyStrOpt (lookupKey kvs "error"))
    | _ => .ok result.dumps
  | _ => .error attributeErrorGet

/-- get_feed: GET /posts with query parameters sort and limit (auth
required), then format the result via feedDisplay. -/
def get_feed (fs : Option FileData) (net : HttpRequest → NetResult)
    (sort : String) (limit : Int) : ToolResult :=
  match api_request fs net "GET" "/posts" none
      (some [("sort", Json.str sort), ("limit", Json.num limit)]) true with
  | .error e => ⟨.error e, fs, []⟩
  | .ok out => ⟨feedDisplay out.result, fs, out.calls⟩

/-- A credential record as the data model describes it: four string
fields. -/
structure CredRecord where
  api_key : String
  agent_name : String
  claim_url : String
  verification_code : String

/-- The JSON dict a credential record is stored as. -/
def CredRecord.toJson (r : CredRecord) : Json :=
  Json.obj [("api_key", Json.str r.api_key), ("agent_name", Json.str r.agent_name),
            ("claim_url", Json.str r.claim_url),
            ("verification_code", Json.str r.verification_code)]

/-- Field access on a JSON value: the binding when the value is a dict
holding the key, none otherwise. -/
def jsonField (v : Json) (field : String) : Option Json :=
  match v with
  | Json.obj kvs => lookupKey kvs field
  | _ => none

/-- Whether the character list hay starts with the character list needle. -/
def charsStartWith : List Char → List Char → Bool
  | [], _ => true
  | _ :: _, [] => false
  | n :: ns, h :: hs => n == h && charsStartWith ns hs

/-- Whether needle occurs contiguously inside hay. -/
def charsContain (needle : List Char) : List Char → Bool
  | [] => needle.isEmpty
  | h :: hs => charsStartWith needle (h :: hs) || charsContain needle hs

/-- Whether sub occurs as a contiguous substring of s. -/
def strContains (s sub : String) : Bool := charsContain sub.data s.data

/-- A key that resolves in an association list proves the list nonempty. -/
theorem lookupKey_ne_nil {kvs : List (String × Json)} {key : String} {v : Json}
    (h : lookupKey kvs key = some v) : kvs.isEmpty = false := by
  cases kvs with
  | nil => exact absurd h (by simp [lookupKey])
  | cons p rest => rfl

/-- get_auth_headers yields no token on an absent file. -/
theorem get_auth_headers_none_absent : get_auth_headers none = .ok none := rfl

/-- get_auth_headers yields no token when the stored record is a dict whose
api_key entry is absent or falsy. -/
theorem get_auth_headers_none_no_key (kvs : List (String × Json))
    (h : ∀ v, lookupKey kvs "api_key" = some v → v.truthy = false) :
    get_auth_headers (some (FileData.jsonContent (Json.obj kvs))) = .ok none := by
  unfold get_auth_headers load_credentials
  by_cases ht : (Json.obj kvs).truthy = false
  · simp [ht]
  · simp only [ht, if_false]
    cases hk : lookupKey kvs "api_key" with
    | none => simp
    | some v => simp [h v hk]

/-- C2 counterexample: on a file whose content is not valid JSON,
load_credentials raises the json.loads parse error instead of returning the
absent value, refuting the claim that any parse failure is treated as
absent. -/
theorem load_credentials_malformed_raises :
    load_credentials (some (FileData.rawContent "not json")) =
        .error (jsonDecodeError "not json") ∧
      load_credentials (some (FileData.rawContent "not json")) ≠ .ok none :=
  ⟨rfl, fun h => nomatch h⟩

/-- C2 (amended): load_credentials never raises when the credential file is
missing — it returns the absent value — but on file content that cannot be
parsed as JSON it raises the parse failure to the caller rather than
returning the absent value. -/
theorem load_credentials_missing_none_malformed_raises :
    load_credentials none = .ok none ∧
    ∀ s, load_credentials (some (FileData.rawContent s)) = .error (jsonDecodeError s) :=
  ⟨rfl, fun _ => rfl⟩

/-- C6: saving any credential record and then loading yields the same
record back, field for field. -/
theorem save_then_load_roundtrip (r : CredRecord) (fs : Option FileData) :
    load_credentials (save_credentials (CredRecord.toJson r) fs) =
        .ok (some (CredRecord.toJson r)) ∧
      jsonField (CredRecord.toJson r) "api_key" = some (Json.str r.api_key) ∧
      jsonField (CredRecord.toJson r) "agent_name" = some (Json.str r.agent_name) ∧
      jsonField (CredRecord.toJson r) "claim_url" = some (Json.str r.claim_url) ∧
      jsonField (CredRecord.toJson r) "verification_code" =
        some (Json.str r.verification_code) :=
  ⟨rfl, rfl, rfl, rfl, rfl⟩

/-- C1: when authentication is required and the credential store yields no
token — the file is absent, or its record is a dict with no truthy
api_key — api_request returns exactly the not-registered failure dict and
issues no network call. -/
theorem api_request_no_token_short_circuits
    (fs : Option FileData) (net : HttpRequest → NetResult)
    (method endpoint : String) (json_data : Option Json)
    (params : Option (List (String × Json)))
    (h : fs = none ∨ ∃ kvs, fs = some (FileData.jsonContent (Json.obj kvs)) ∧
          ∀ v, lookupKey kvs "api_key" = some v → v.truthy = false) :
    api_request fs net method endpoint json_data params true =
      .ok ⟨mkFailure notRegisteredMsg, []⟩ := by
  have hauth : get_auth_headers fs = .ok none := by
    rcases h with h | ⟨kvs, hfs, hk⟩
    · rw [h]; exact get_auth_headers_none_absent
    · rw [hfs]; exact get_auth_headers_none_no_key kvs hk
  simp [api_request, hauth]

/-- Witness for C1 at the concrete input of an absent credential file. -/
theorem api_request_no_token_short_circuits_witness :
    api_request none (fun _ => NetResult.err "connection refused")
        "GET" "/agents/me" none none true =
      .ok ⟨mkFailure notRegisteredMsg, []⟩ :=
  api_request_no_token_short_circuits none (fun _ => NetResult.err "connection refused")
    "GET" "/agents/me" none none (Or.inl rfl)

/-- When authentication is off or a token resolves, api_request reaches the
network layer with some header list. -/
theorem api_request_run (fs : Option FileData) (net : HttpRequest → NetResult)
    (method endpoint : String) (json_data : Option Json)
    (params : Option (List (String × Json))) (require_auth : Bool)
    (hauth : require_auth = false ∨ ∃ a, get_auth_headers fs = .ok (some a)) :
    ∃ headers, api_request fs net method endpoint json_data params require_auth =
      .ok (requestAndNormalize net method (MOLTBOOK_API_BASE ++ endpoint)
            json_data params headers) := by
  rcases hauth with h | ⟨a, ha⟩
  · subst h; exact ⟨baseHeaders, rfl⟩
  · cases hr : require_auth
    · exact ⟨baseHeaders, rfl⟩
    · exact ⟨baseHeaders ++ [("Authorization", a)], by simp [api_request, ha]⟩

/-- A transport-level exception is normalized to the failure dict carrying
its message, after exactly one issued request. -/
theorem requestAndNormalize_err (net : HttpRequest → NetResult)
    (method url : String) (json_data : Option Json)
    (params : Option (List (String × Json))) (headers : List (String × String))
    (msg : String) (hnet : ∀ r, net r = NetResult.err msg) :
    requestAndNormalize net method url json_data params headers =
      ⟨mkFailure msg, [⟨method, url, json_data, params, headers⟩]⟩ := by
  simp [requestAndNormalize, hnet]

/-- A non-2xx response whose body parses as a JSON dict is normalized to
the success-False dict with the body's error field (or the HTTPStatusError
message) and hint field (or None). -/
theorem requestAndNormalize_non2xx_obj (net : HttpRequest → NetResult)
    (method url : String) (json_data : Option Json)
    (params : Option (List (String × Json))) (headers : List (String × String))
    (status : Nat) (body : HttpBody) (kvs : List (String × Json))
    (hnet : ∀ r, net r = NetResult.resp status body)
    (hs : statusIs2xx status = false)
    (hb : body.parsed = some (Json.obj kvs)) :
    requestAndNormalize net method url json_data params headers =
      ⟨Json.obj [("success", Json.bool false),
                 ("error", (lookupKey kvs "error").getD
                             (Json.str (httpStatusErrorStr status url))),
                 ("hint", (lookupKey kvs "hint").getD Json.null)],
       [⟨method, url, json_data, params, headers⟩]⟩ := by
  simp [requestAndNormalize, hnet, hs, hb]

/-- A non-2xx response whose body does not parse as JSON is normalized to
the failure dict whose error string is the status code, a dash, and the raw
body text. -/
theorem requestAndNormalize_non2xx_nonjson (net : HttpRequest → NetResult)
    (method url : String) (json_data : Option Json)
    (params : Option (List (String × Json))) (headers : List (String × String))
    (status : Nat) (body : HttpBody)
    (hnet : ∀ r, net r = NetResult.resp status body)
    (hs : statusIs2xx status = false)
    (hb : body.parsed = none) :
    requestAndNormalize net method url json_data params headers =
      ⟨mkFailure (toString status ++ " - " ++ body.text),
       [⟨method, url, json_data, params, headers⟩]⟩ := by
  simp [requestAndNormalize, hnet, hs, hb]

/-- C3: on a non-2xx response whose body parses as JSON containing an error
field, api_request returns the failure dict whose error is exactly that
field and whose hint is exactly the body's optional hint field. -/
theorem api_request_non2xx_reflects_error_and_hint
    (fs : Option FileData) (net : HttpRequest → NetResult)
    (method endpoint : String) (json_data : Option Json)
    (params : Option (List (String × Json))) (require_auth : Bool)
    (status : Nat) (body : HttpBody) (kvs : List (String × Json)) (ev : Json)
    (hnet : ∀ r, net r = NetResult.resp status body)
    (hs : statusIs2xx status = false)
    (hb : body.parsed = some (Json.obj kvs))
    (he : lookupKey kvs "error" = some ev)
    (hauth : require_auth = false ∨ ∃ a, get_auth_headers fs = .ok (some a)) :
    ∃ req, api_request fs net method endpoint json_data params require_auth =
      .ok ⟨Json.obj [("success", Json.bool false), ("error", ev),
                     ("hint", (lookupKey kvs "hint").getD Json.null)], [req]⟩ := by
  obtain ⟨headers, hrun⟩ :=
    api_request_run fs net method endpoint json_data params require_auth hauth
  refine ⟨⟨method, MOLTBOOK_API_BASE ++ endpoint, json_data, params, headers⟩, ?_⟩
  rw [hrun,
    requestAndNormalize_non2xx_obj net method (MOLTBOOK_API_BASE ++ endpoint)
      json_data params headers status body kvs hnet hs hb, he]
  rfl

/-- Witness for C3: a stubbed 404 whose JSON body carries error and hint
fields, on an unauthenticated request. -/
theorem api_request_non2xx_reflects_error_and_hint_witness :
    ∃ req, api_request none
        (fun _ => NetResult.resp 404
          ⟨"\x7b\"error\": \"nope\", \"hint\": \"try later\"\x7d",
           some (Json.obj [("error", Json.str "nope"), ("hint", Json.str "try later")])⟩)
        "GET" "/posts" none none false =
      .ok ⟨Json.obj [("success", Json.bool false), ("error", Json.str "nope"),
                     ("hint", (lookupKey [("error", Json.str "nope"),
                       ("hint", Json.str "try later")] "hint").getD Json.null)], [req]⟩ :=
  api_request_non2xx_reflects_error_and_hint none _ "GET" "/posts" none none false
    404 _ [("error", Json.str "nope"), ("hint", Json.str "try later")] (Json.str "nope")
    (fun _ => rfl) (by decide) rfl rfl (Or.inl rfl)

/-- C4: on a non-2xx response whose body does not parse as JSON,
api_request returns the failure dict whose error string is the numeric
status code, a separator, and the raw body text. -/
theorem api_request_non2xx_nonjson_status_text
    (fs : Option FileData) (net : HttpRequest → NetResult)
    (method endpoint : String) (json_data : Option Json)
    (params : Option (List (String × Json))) (require_auth : Bool)
    (status : Nat) (body : HttpBody)
    (hnet : ∀ r, net r = NetResult.resp status body)
    (hs : statusIs2xx status = false)
    (hb : body.parsed = none)
    (hauth : require_auth = false ∨ ∃ a, get_auth_headers fs = .ok (some a)) :
    ∃ req, api_request fs net method endpoint json_data params require_auth =
      .ok ⟨mkFailure (toString status ++ " - " ++ body.text), [req]⟩ := by
  obtain ⟨headers, hrun⟩ :=
    api_request_run fs net method endpoint json_data params require_auth hauth
  refine ⟨⟨method, MOLTBOOK_API_BASE ++ endpoint, json_data, params, headers⟩, ?_⟩
  rw [hrun,
    requestAndNormalize_non2xx_nonjson net method (MOLTBOOK_API_BASE ++ endpoint)
      json_data params headers status body hnet hs hb]

/-- Witness for C4: a stubbed 500 returning an HTML error page. -/
theorem api_request_non2xx_nonjson_status_text_witness :
    ∃ req, api_request none
        (fun _ => NetResult.resp 500 ⟨"<html>boom</html>", none⟩)
        "GET" "/posts" none none false =
      .ok ⟨mkFailure (toString 500 ++ " - " ++
             (HttpBody.mk "<html>boom</html>" none).text), [req]⟩ :=
  api_request_non2xx_nonjson_status_text none _ "GET" "/posts" none none false
    500 ⟨"<html>boom</html>", none⟩ (fun _ => rfl) (by decide) rfl (Or.inl rfl)

/-- A success-status response whose body cannot be parsed as JSON makes
response.json() raise, which the generic handler turns into the failure
dict carrying the parse exception message. -/
theorem requestAndNormalize_2xx_nonjson (net : HttpRequest → NetResult)
    (method url : String) (json_data : Option Json)
    (params : Option (List (String × Json))) (headers : List (String × String))
    (status : Nat) (body : HttpBody)
    (hnet : ∀ r, net r = NetResult.resp status body)
    (hs : statusIs2xx status = true)
    (hb : body.parsed = none) :
    requestAndNormalize net method url json_data params headers =
      ⟨mkFailure (jsonDecodeError body.text),
       [⟨method, url, json_data, params, headers⟩]⟩ := by
  simp [requestAndNormalize, hnet, hs, hb]

/-- C5: every failure caught by the generic exception handler — a
transport-level exception raised by the request itself, or an unparsable
body of a success response — is returned as the failure dict carrying the
underlying exception message; api_request returns normally (Except.ok)
instead of propagating the exception past the call boundary. -/
theorem api_request_transport_failure_shape
    (fs : Option FileData) (net : HttpRequest → NetResult)
    (method endpoint : String) (json_data : Option Json)
    (params : Option (List (String × Json))) (require_auth : Bool)
    (hauth : require_auth = false ∨ ∃ a, get_auth_headers fs = .ok (some a)) :
    (∀ msg, (∀ r, net r = NetResult.err msg) →
      ∃ req, api_request fs net method endpoint json_data params require_auth =
        .ok ⟨mkFailure msg, [req]⟩) ∧
    (∀ status body, (∀ r, net r = NetResult.resp status body) →
      statusIs2xx status = true → body.parsed = none →
      ∃ req, api_request fs net method endpoint json_data params require_auth =
        .ok ⟨mkFailure (jsonDecodeError body.text), [req]⟩) := by
  obtain ⟨headers, hrun⟩ :=
    api_request_run fs net method endpoint json_data params require_auth hauth
  constructor
  · intro msg hnet
    refine ⟨⟨method, MOLTBOOK_API_BASE ++ endpoint, json_data, params, headers⟩, ?_⟩
    rw [hrun,
      requestAndNormalize_err net method (MOLTBOOK_API_BASE ++ endpoint)
        json_data params headers msg hnet]
  · intro status body hnet hs hb
    refine ⟨⟨method, MOLTBOOK_API_BASE ++ endpoint, json_data, params, headers⟩, ?_⟩
    rw [hrun,
      requestAndNormalize_2xx_nonjson net method (MOLTBOOK_API_BASE ++ endpoint)
        json_data params headers status body hnet hs hb]

/-- Witness for C5: a stubbed connection-refused transport error. -/
theorem api_request_transport_failure_shape_witness :
    ∃ req, api_request none (fun _ => NetResult.err "connection refused")
        "POST" "/posts" none none false =
      .ok ⟨mkFailure "connection refused", [req]⟩ :=
  (api_request_transport_failure_shape none (fun _ => NetResult.err "connection refused")
      "POST" "/posts" none none false (Or.inl rfl)).1
    "connection refused" (fun _ => rfl)

/-- Whatever the transport does, requestAndNormalize issues exactly the one
request built from its arguments. -/
theorem requestAndNormalize_calls (net : HttpRequest → NetResult)
    (method url : String) (json_data : Option Json)
    (params : Option (List (String × Json))) (headers : List (String × String)) :
    (requestAndNormalize net method url json_data params headers).calls =
      [⟨method, url, json_data, params, headers⟩] := by
  simp only [requestAndNormalize]
  split
  · rfl
  · split
    · split <;> rfl
    · split <;> rfl

/-- C8: get_feed forwards the sort argument unchanged as the sort query
parameter of the single GET /posts request it issues, with no validation of
the value. -/
theorem get_feed_forwards_sort
    (fs : Option FileData) (net : HttpRequest → NetResult)
    (auth sort : String) (limit : Int)
    (hauth : get_auth_headers fs = .ok (some auth)) :
    (get_feed fs net sort limit).calls =
      [⟨"GET", MOLTBOOK_API_BASE ++ "/posts", none,
        some [("sort", Json.str sort), ("limit", Json.num limit)],
        baseHeaders ++ [("Authorization", auth)]⟩] ∧
    lookupKey [("sort", Json.str sort), ("limit", Json.num limit)] "sort" =
      some (Json.str sort) := by
  constructor
  · simp only [get_feed, api_request, hauth]
    exact requestAndNormalize_calls net "GET" (MOLTBOOK_API_BASE ++ "/posts") none
      (some [("sort", Json.str sort), ("limit", Json.num limit)])
      (baseHeaders ++ [("Authorization", auth)])
  · rfl

/-- Witness for C8 at the concrete call of the spec scenario: sort bogus,
limit 25, with a stored api_key K. -/
theorem get_feed_forwards_sort_witness :
    (get_feed (some (FileData.jsonContent (Json.obj [("api_key", Json.str "K")])))
        (fun _ => NetResult.err "down") "bogus" 25).calls =
      [⟨"GET", MOLTBOOK_API_BASE ++ "/posts", none,
        some [("sort", Json.str "bogus"), ("limit", Json.num 25)],
        baseHeaders ++ [("Authorization", "Bearer K")]⟩] ∧
    lookupKey [("sort", Json.str "bogus"), ("limit", Json.num 25)] "sort" =
      some (Json.str "bogus") :=
  get_feed_forwards_sort (some (FileData.jsonContent (Json.obj [("api_key", Json.str "K")])))
    (fun _ => NetResult.err "down") "Bearer K" "bogus" 25 rfl

/-- C9: with a stored record holding a truthy api_key, register_on_moltbook
returns the already-registered message naming the stored agent_name, leaves
the credential file untouched, and issues no network call. -/
theorem register_already_registered
    (net : HttpRequest → NetResult) (kvs : List (String × Json))
    (key nm name description : String)
    (hk : lookupKey kvs "api_key" = some (Json.str key))
    (hkey : key ≠ "")
    (hname : lookupKey kvs "agent_name" = some (Json.str nm)) :
    register_on_moltbook (some (FileData.jsonContent (Json.obj kvs))) net
        name description =
      ⟨.ok ("Already registered as " ++ nm ++ ". API key exists."),
       some (FileData.jsonContent (Json.obj kvs)), []⟩ := by
  have hne : kvs.isEmpty = false := lookupKey_ne_nil hk
  have ht : (Json.obj kvs).truthy = true := by simp [Json.truthy, hne]
  have hv : (Json.str key).truthy = true := by
    simp [Json.truthy]
    exact hkey
  simp [register_on_moltbook, load_credentials, ht, hk, hv, hname, pyStrOpt, Json.pyStr]

/-- Witness for C9 at a concrete stored record. -/
theorem register_already_registered_witness :
    register_on_moltbook
        (some (FileData.jsonContent (Json.obj
          [("api_key", Json.str "k1"), ("agent_name", Json.str "Ava")])))
        (fun _ => NetResult.err "down") "NewName" "desc" =
      ⟨.ok ("Already registered as " ++ "Ava" ++ ". API key exists."),
       some (FileData.jsonContent (Json.obj
         [("api_key", Json.str "k1"), ("agent_name", Json.str "Ava")])), []⟩ :=
  register_already_registered (fun _ => NetResult.err "down")
    [("api_key", Json.str "k1"), ("agent_name", Json.str "Ava")]
    "k1" "Ava" "NewName" "desc" rfl (by decide) rfl

/-- Claim URL the stubbed registration endpoint hands back. -/
def fidoClaimUrl : String := "https://www.moltbook.com/claim/abc123"

/-- The stubbed registration response body of the C7 scenario. -/
def fidoAgentJson : Json :=
  Json.obj [("agent", Json.obj [("api_key", Json.str "k1"),
    ("claim_url", Json.str fidoClaimUrl), ("verification_code", Json.str "123")])]

/-- Transport stub answering every request with 200 and the scenario
body. -/
def fidoNet : HttpRequest → NetResult :=
  fun _ => NetResult.resp 200 ⟨Json.dumps fidoAgentJson, some fidoAgentJson⟩

/-- The display string the scenario run returns. -/
def fidoDisplay : String :=
  registrationMessage "Fido" (some (Json.str fidoClaimUrl)) (some (Json.str "123"))

/-- The credential record the scenario run saves. -/
def fidoSavedRecord : Json :=
  Json.obj [("api_key", Json.str "k1"), ("agent_name", Json.str "Fido"),
    ("claim_url", Json.str fidoClaimUrl), ("verification_code", Json.str "123")]

/-- C7: registering as Fido with no stored credential against the stubbed
endpoint saves a credential record whose api_key is k1 and returns a
display string containing Fido and the claim URL. -/
theorem register_fido_scenario :
    register_on_moltbook none fidoNet "Fido" "a good boy" =
      ⟨.ok fidoDisplay, some (FileData.jsonContent fidoSavedRecord),
       [⟨"POST", MOLTBOOK_API_BASE ++ "/agents/register",
         some (Json.obj [("name", Json.str "Fido"),
                         ("description", Json.str "a good boy")]),
         none, baseHeaders⟩]⟩ ∧
    jsonField fidoSavedRecord "api_key" = some (Json.str "k1") ∧
    strContains fidoDisplay "Fido" = true ∧
    strContains fidoDisplay fidoClaimUrl = true := by
  refine ⟨rfl, rfl, ?_, ?_⟩ <;> decide

/-- C10 counterexample: a 404 whose body is the JSON array [] parses as
JSON, yet the returned failure dict has no hint key at all and its error
is the status-and-text string, not the HTTPStatusError message — so the
claim quantified over every JSON body fails on non-object JSON bodies. -/
theorem api_request_non2xx_json_array_counterexample :
    (HttpBody.mk "[]" (some (Json.arr []))).parsed = some (Json.arr []) ∧
    api_request none (fun _ => NetResult.resp 404 ⟨"[]", some (Json.arr [])⟩)
        "GET" "/posts" none none false =
      .ok ⟨mkFailure "404 - []",
           [⟨"GET", MOLTBOOK_API_BASE ++ "/posts", none, none, baseHeaders⟩]⟩ ∧
    jsonField (mkFailure "404 - []") "hint" = none ∧
    jsonField (mkFailure "404 - []") "error" = some (Json.str "404 - []") :=
  ⟨rfl, rfl, rfl, rfl⟩

/-- C10 (amended): for every non-2xx response whose body parses as a JSON
object, the failure record always contains the key hint — bound to the
body's hint field, or to None when the body supplies none — and when the
object lacks an error field the record's error is the HTTP status error's
own message rather than a server-supplied string. -/
theorem api_request_non2xx_object_hint_key_and_default_error
    (fs : Option FileData) (net : HttpRequest → NetResult)
    (method endpoint : String) (json_data : Option Json)
    (params : Option (List (String × Json))) (require_auth : Bool)
    (status : Nat) (body : HttpBody) (kvs : List (String × Json))
    (hnet : ∀ r, net r = NetResult.resp status body)
    (hs : statusIs2xx status = false)
    (hb : body.parsed = some (Json.obj kvs))
    (hauth : require_auth = false ∨ ∃ a, get_auth_headers fs = .ok (some a)) :
    ∃ req result,
      api_request fs net method endpoint json_data params require_auth =
        .ok ⟨result, [req]⟩ ∧
      jsonField result "hint" = some ((lookupKey kvs "hint").getD Json.null) ∧
      (lookupKey kvs "error" = none →
        jsonField result "error" =
          some (Json.str (httpStatusErrorStr status (MOLTBOOK_API_BASE ++ endpoint)))) := by
  obtain ⟨headers, hrun⟩ :=
    api_request_run fs net method endpoint json_data params require_auth hauth
  refine ⟨⟨method, MOLTBOOK_API_BASE ++ endpoint, json_data, params, headers⟩,
    Json.obj [("success", Json.bool false),
              ("error", (lookupKey kvs "error").getD
                          (Json.str (httpStatusErrorStr status (MOLTBOOK_API_BASE ++ endpoint)))),
              ("hint", (lookupKey kvs "hint").getD Json.null)], ?_, ?_, ?_⟩
  · rw [hrun,
      requestAndNormalize_non2xx_obj net method (MOLTBOOK_API_BASE ++ endpoint)
        json_data params headers status body kvs hnet hs hb]
  · simp [jsonField, lookupKey]
  · intro hno
    simp [jsonField, lookupKey, hno]

/-- Witness for the amended C10: a 403 whose JSON body is the empty
object. -/
theorem api_request_non2xx_object_hint_key_and_default_error_witness :
    ∃ req result,
      api_request none (fun _ => NetResult.resp 403 ⟨"\x7b\x7d", some (Json.obj [])⟩)
          "DELETE" "/posts/p9" none none false =
        .ok ⟨result, [req]⟩ ∧
      jsonField result "hint" = some ((lookupKey ([] : List (String × Json)) "hint").getD Json.null) ∧
      (lookupKey ([] : List (String × Json)) "error" = none →
        jsonField result "error" =
          some (Json.str (httpStatusErrorStr 403 (MOLTBOOK_API_BASE ++ "/posts/p9")))) :=
  api_request_non2xx_object_hint_key_and_default_error none _ "DELETE" "/posts/p9"
    none none false 403 ⟨"\x7b\x7d", some (Json.obj [])⟩ []
    (fun _ => rfl) (by decide) rfl (Or.inl rfl)

end Moltbook
